import Mathlib

/-!
Shallow embedding of the ai_hq repository (src/app.py and src/main.py).

Python values parsed from JSON are modelled by the inductive type Json
(JSON numbers are modelled as integers; none of the verified claims
involves fractional numbers).  HTTP traffic is modelled by a function
from call index to the response the upstream would serve, so that the
number of upstream attempts made by a piece of code is observable.
Filesystem effects (the staged skill files, the scheduled memory
writes) are modelled as explicit outputs.
-/

/-- A JSON value as produced by response.json in httpx. -/
inductive Json where
  | null
  | bool (b : Bool)
  | num (n : Int)
  | str (s : String)
  | arr (xs : List Json)
  | obj (kvs : List (String × Json))
deriving Repr

def Json.isNull : Json → Bool
  | .null => true
  | _ => false

/-- Python truthiness of a string equality test against a Json element
(used by the Python expression needle in somelist). -/
def jsonIsStr (needle : String) : Json → Bool
  | .str s => s == needle
  | _ => false

/-- Escape a character for the Python repr of a string quoted by q. -/
def pyEscape (q : Char) (s : String) : String :=
  String.mk (s.data.foldr (fun c acc =>
    if c = '\\' then '\\' :: '\\' :: acc
    else if c = q then '\\' :: q :: acc
    else if c = '\n' then '\\' :: 'n' :: acc
    else if c = '\t' then '\\' :: 't' :: acc
    else if c = '\r' then '\\' :: 'r' :: acc
    else c :: acc) [])

/-- Python repr of a string: single quotes, switching to double quotes
when the string holds a single quote but no double quote. -/
def pyReprStr (s : String) : String :=
  if s.data.contains '\'' && !(s.data.contains '"') then
    "\"" ++ pyEscape '"' s ++ "\""
  else
    "'" ++ pyEscape '\'' s ++ "'"

mutual
/-- Python repr of a value parsed from JSON. -/
def pyRepr : Json → String
  | .null => "None"
  | .bool true => "True"
  | .bool false => "False"
  | .num n => toString n
  | .str s => pyReprStr s
  | .arr xs => "[" ++ String.intercalate ", " (pyReprList xs) ++ "]"
  | .obj kvs => "\x7b" ++ String.intercalate ", " (pyReprKVs kvs) ++ "\x7d"

def pyReprList : List Json → List String
  | [] => []
  | x :: xs => pyRepr x :: pyReprList xs

def pyReprKVs : List (String × Json) → List String
  | [] => []
  | (k, v) :: kvs => (pyReprStr k ++ ": " ++ pyRepr v) :: pyReprKVs kvs
end

/-- Python str of a value parsed from JSON: a string prints raw, other
values print as their repr. -/
def pyStr : Json → String
  | .str s => s
  | v => pyRepr v

/-! String and list helpers mirroring the Python operations used by the
source: lowercasing, substring membership, list slicing, string slicing. -/

/-- Python lowercasing (the source only tests for the ASCII word logo). -/
def pyLower (s : String) : String := String.mk (s.data.map Char.toLower)

def charsStartWith : List Char → List Char → Bool
  | [], _ => true
  | _ :: _, [] => false
  | a :: as, b :: bs => a == b && charsStartWith as bs

def charsContain (needle : List Char) : List Char → Bool
  | [] => charsStartWith needle []
  | c :: cs => charsStartWith needle (c :: cs) || charsContain needle cs

/-- The Python substring test needle in hay. -/
def strContains (needle hay : String) : Bool :=
  charsContain needle.data hay.data

/-- The Python slice l[-n:]. -/
def lastN (n : Nat) (l : List α) : List α := l.drop (l.length - n)

/-- The Python slice s[:n] on a string (slicing by code points). -/
def pyTake (n : Nat) (s : String) : String := String.mk (s.data.take n)

theorem lastN_length_le (n : Nat) (l : List α) : (lastN n l).length ≤ n := by
  simp only [lastN, List.length_drop]
  omega

theorem pyTake_length_le (n : Nat) (s : String) : (pyTake n s).length ≤ n := by
  simp only [pyTake]
  show (s.data.take n).length ≤ n
  simp

/-- Dropping to the last n elements twice, around an append, collapses. -/
theorem lastN_append_absorb (n : Nat) (a b : List α) :
    lastN n (lastN n a ++ b) = lastN n (a ++ b) := by
  simp only [lastN, List.drop_append_eq_append_drop, List.length_append, List.length_drop,
    List.drop_drop]
  have h1 : a.length - n + (a.length - (a.length - n) + b.length - n) =
      a.length + b.length - n := by omega
  have h2 : a.length - (a.length - n) + b.length - n - (a.length - (a.length - n)) =
      a.length + b.length - n - a.length := by omega
  rw [h1, h2]

/-! SHA-1, as used by hashlib.sha1 in src/app.py to fingerprint
proposals.  Bytes and 32-bit words are Nats reduced modulo 2 ^ 32 at
each arithmetic step. -/

def M32 : Nat := 4294967296

def rotl (n x : Nat) : Nat := (((x <<< n) % M32) ||| (x >>> (32 - n)))

/-- UTF-8 encoding of one code point (Python str.encode). -/
def utf8Encode (c : Nat) : List Nat :=
  if c < 128 then [c]
  else if c < 2048 then [192 ||| (c >>> 6), 128 ||| (c &&& 63)]
  else if c < 65536 then
    [224 ||| (c >>> 12), 128 ||| ((c >>> 6) &&& 63), 128 ||| (c &&& 63)]
  else
    [240 ||| (c >>> 18), 128 ||| ((c >>> 12) &&& 63),
     128 ||| ((c >>> 6) &&& 63), 128 ||| (c &&& 63)]

/-- The UTF-8 bytes of a string (Python str.encode). -/
def strBytes (s : String) : List Nat :=
  s.data.foldr (fun c acc => utf8Encode c.toNat ++ acc) []

/-- Big-endian byte decomposition, count bytes. -/
def bytesBE (count n : Nat) : List Nat :=
  (List.range count).map (fun i => (n >>> (8 * (count - 1 - i))) % 256)

/-- SHA-1 message padding: 0x80, zeros to 56 mod 64, 8-byte bit length. -/
def sha1Pad (msg : List Nat) : List Nat :=
  msg ++ [128] ++ List.replicate ((119 - msg.length % 64) % 64) 0
      ++ bytesBE 8 (msg.length * 8)

def chunkAux (sz : Nat) : Nat → List Nat → List (List Nat)
  | 0, _ => []
  | _, [] => []
  | fuel + 1, x :: xs => (x :: xs).take sz :: chunkAux sz fuel ((x :: xs).drop sz)

/-- Split a byte list into chunks of size sz. -/
def chunk (sz : Nat) (l : List Nat) : List (List Nat) := chunkAux sz l.length l

/-- Big-endian word value of a byte chunk. -/
def wordOf (bytes : List Nat) : Nat := bytes.foldl (fun a b => a * 256 + b) 0

/-- Extend the 16 block words to the 80-entry message schedule. -/
def extendW (w16 : List Nat) : List Nat :=
  (List.range 64).foldl (fun w _ =>
    let n := w.length
    w ++ [rotl 1 ((w.getD (n - 3) 0) ^^^ (w.getD (n - 8) 0) ^^^
                  (w.getD (n - 14) 0) ^^^ (w.getD (n - 16) 0))]) w16

def sha1F (t b c d : Nat) : Nat :=
  if t < 20 then (b &&& c) ||| ((b ^^^ 4294967295) &&& d)
  else if t < 40 then b ^^^ c ^^^ d
  else if t < 60 then (b &&& c) ||| (b &&& d) ||| (c &&& d)
  else b ^^^ c ^^^ d

def sha1K (t : Nat) : Nat :=
  if t < 20 then 1518500249
  else if t < 40 then 1859775393
  else if t < 60 then 2400959708
  else 3395469782

def sha1Block (h : Nat × Nat × Nat × Nat × Nat) (block : List Nat) :
    Nat × Nat × Nat × Nat × Nat :=
  let w := extendW ((chunk 4 block).map wordOf)
  let (h0, h1, h2, h3, h4) := h
  let step := fun (st : Nat × Nat × Nat × Nat × Nat) (tw : Nat × Nat) =>
    let (a, b, c, d, e) := st
    let temp := (rotl 5 a + sha1F tw.1 b c d + e + sha1K tw.1 + tw.2) % M32
    (temp, a, rotl 30 b, c, d)
  let (a, b, c, d, e) := ((List.range 80).zip w).foldl step (h0, h1, h2, h3, h4)
  ((h0 + a) % M32, (h1 + b) % M32, (h2 + c) % M32, (h3 + d) % M32, (h4 + e) % M32)

def hexDigit (n : Nat) : Char :=
  if n < 10 then Char.ofNat (48 + n) else Char.ofNat (87 + n)

def hex8 (n : Nat) : String :=
  String.mk ((List.range 8).map (fun i => hexDigit ((n >>> (4 * (7 - i))) % 16)))

/-- The hex digest of SHA-1 over a byte list (hashlib.sha1 hexdigest). -/
def sha1Hex (msg : List Nat) : String :=
  let hs := (chunk 64 (sha1Pad msg)).foldl sha1Block
    (1732584193, 4023233417, 2562383102, 271733878, 3285377520)
  hex8 hs.1 ++ hex8 hs.2.1 ++ hex8 hs.2.2.1 ++ hex8 hs.2.2.2.1 ++ hex8 hs.2.2.2.2

set_option maxRecDepth 8000 in
example : sha1Hex (strBytes "abc") = "a9993e364706816aba3e25717850c26c9cd0d89d" := by
  decide

/-! Embedding of src/app.py. -/

/-- The Python exceptions that the embedded code can raise.
runtimeError covers the deliberate RuntimeError raises of the source
(missing token, model error); httpStatusError is the httpx exception
of raise_for_status; indexError, typeError and keyError are unintended
exceptions escaping from the normalization code. -/
inductive PyExc where
  | runtimeError (msg : String)
  | httpStatusError (status : Nat)
  | indexError
  | typeError (msg : String)
  | keyError (key : String)
deriving Repr, DecidableEq

/-- An upstream HTTP response: status code and parsed JSON body. -/
structure HttpResp where
  status : Nat
  body : Json

/-- httpx raise_for_status succeeds exactly on 2xx responses. -/
def isSuccessStatus (s : Nat) : Bool := 200 ≤ s && s < 300

/-- The Python membership test needle in v, for v a value parsed from
JSON: key test on a dict, substring test on a string, element test on
a list, TypeError elsewhere. -/
def pyIn (needle : String) : Json → Except PyExc Bool
  | .obj kvs => .ok ((kvs.map Prod.fst).contains needle)
  | .str s => .ok (strContains needle s)
  | .arr xs => .ok (xs.any (jsonIsStr needle))
  | _ => .error (.typeError "argument is not iterable")

/-- The Python subscript v[key] with a string key. -/
def pySubscript (v : Json) (key : String) : Except PyExc Json :=
  match v with
  | .obj kvs =>
    match kvs.lookup key with
    | some x => .ok x
    | none => .error (.keyError key)
  | .str _ => .error (.typeError "string indices must be integers")
  | .arr _ => .error (.typeError "list indices must be integers")
  | _ => .error (.typeError "object is not subscriptable")

/-- The response-shape normalization at the end of call_hf_text
(src/app.py lines 85-92): an error dict raises RuntimeError, a list
whose first element holds generated_text returns it, anything else
falls back to str(j). -/
def hfNormalize (j : Json) : Except PyExc Json :=
  match j with
  | .obj kvs =>
    if (kvs.map Prod.fst).contains "error" then
      .error (.runtimeError ("Model error: " ++ pyStr ((kvs.lookup "error").getD .null)))
    else .ok (.str (pyStr j))
  | .arr [] => .error .indexError
  | .arr (x :: rest) =>
    match pyIn "generated_text" x with
    | .error e => .error e
    | .ok true => pySubscript x "generated_text"
    | .ok false => .ok (.str (pyStr (.arr (x :: rest))))
  | _ => .ok (.str (pyStr j))

/-- call_hf_text (src/app.py lines 75-92).  The network is a function
from post index to the response the upstream serves; the call starts
at index k and the second component of the result is the next free
index, so that the number of posts the call makes is observable.  A
missing token raises before any post; otherwise exactly one post is
made and its response is checked and normalized. -/
def call_hf_text (token : Option String) (net : Nat → HttpResp) (k : Nat) :
    Except PyExc Json × Nat :=
  match token with
  | none => (.error (.runtimeError "Hugging Face token not set"), k)
  | some _ =>
    let r := net k
    if isSuccessStatus r.status then (hfNormalize r.body, k + 1)
    else (.error (.httpStatusError r.status), k + 1)

/-- One conversation entry as appended by chat in src/app.py line 134. -/
structure Turn where
  prompt : String
  response : Json
deriving Repr

/-- The decrypted memory document: conversation history and rolling
summary (src/app.py reads them with memory.get). -/
structure MemoryDoc where
  conversations : List Turn := []
  summary : String := ""
deriving Repr

/-- The memory document that chat hands to write_memory when learning
succeeds (src/app.py lines 134-144): the turn is appended and the
history trimmed to its last 200 entries, and the one-line summary is
appended to the rolling summary which is then cut to its first 2000
characters. -/
def chatUpdate (memory : MemoryDoc) (prompt : String) (resp : Json) (summ : String) :
    MemoryDoc :=
  { conversations := lastN 200 (memory.conversations ++ [⟨prompt, resp⟩]),
    summary := pyTake 2000 (memory.summary.trim ++ " " ++ summ.trim) }

/-- The observable outcome of one chat request: the HTTP response (a
500 with the exception detail when the primary call fails), the next
free network index (so the number of gateway posts is observable), and
the list of memory documents passed to background_tasks.add_task. -/
structure ChatResult where
  outcome : Except String Json
  netEnd : Nat
  writes : List MemoryDoc
deriving Repr

/-- str(e) for the exceptions raised out of call_hf_text. -/
def excDetail : PyExc → String
  | .runtimeError m => m
  | .httpStatusError s => "HTTP status error: " ++ toString s
  | .indexError => "list index out of range"
  | .typeError m => m
  | .keyError k => k

set_option linter.unusedVariables false in
/-- chat (src/app.py lines 115-148).  The primary gateway call failing
turns into an HTTP 500; on success the turn is appended to the
history; only when allow_learn is true a second gateway call produces
a one-line summary, and only when that call succeeds (and returns a
string, so that strip applies) is a memory write scheduled.  A failing
learning step is swallowed and the response still returned. -/
def chat (token : Option String) (memory : MemoryDoc) (prompt : String)
    (allow_learn : Bool) (net : Nat → HttpResp) : ChatResult :=
  let full_prompt :=
    "Memory:\n" ++ memory.summary ++ "\n\nUser: " ++ prompt ++ "\nAssistant:"
  match call_hf_text token net 0 with
  | (.error e, k) => ⟨.error (excDetail e), k, []⟩
  | (.ok resp, k) =>
    if allow_learn then
      match call_hf_text token net k with
      | (.error _, k2) => ⟨.ok resp, k2, []⟩
      | (.ok summ, k2) =>
        match summ with
        | .str s => ⟨.ok resp, k2, [chatUpdate memory prompt resp s]⟩
        | _ => ⟨.ok resp, k2, []⟩
    else ⟨.ok resp, k, []⟩

/-! The proposal ledger (src/app.py lines 94-108 and 149-201).  The
ledger file holds a JSON object mapping proposal id to record; it is
modelled as an association list with the insertion-order-preserving
key update of a Python dict. -/

/-- A proposal record as stored in proposals.json.  The staged_file
key is absent until the proposal is approved. -/
structure Proposal where
  user_id : String
  prompt : String
  code : String
  approved : Bool
  staged_file : Option String := none
deriving Repr, DecidableEq

abbrev Ledger := List (String × Proposal)

/-- Python dict lookup proposals.get(pid). -/
def dictGet (l : Ledger) (k : String) : Option Proposal :=
  match l with
  | [] => none
  | (k', v) :: rest => if k' = k then some v else dictGet rest k

/-- Python dict update proposals[pid] = record: replaces the value in
place when the key exists, appends otherwise. -/
def dictInsert (l : Ledger) (k : String) (v : Proposal) : Ledger :=
  match l with
  | [] => [(k, v)]
  | (k', v') :: rest =>
    if k' = k then (k, v) :: rest else (k', v') :: dictInsert rest k v

def keysOf (l : Ledger) : List String := l.map Prod.fst

/-- A Python dict never holds a key twice. -/
def nodupKeys (l : Ledger) : Prop := (keysOf l).Nodup

/-- The number of entries of the ledger carrying the given id. -/
def countKey (l : Ledger) (k : String) : Nat :=
  (l.filter (fun e => e.1 = k)).length

/-- The ledger part of propose_upgrade (src/app.py lines 163-171):
fingerprint the concatenation user_id + prompt + code with sha1, keep
the first 10 hex digits, insert a fresh unapproved record under that
id, and return the id. -/
def propose_upgrade (proposals : Ledger) (user_id prompt code : String) :
    Ledger × String :=
  let pid := (sha1Hex (strBytes (user_id ++ prompt ++ code))).take 10
  (dictInsert proposals pid ⟨user_id, prompt, code, false, none⟩, pid)

inductive ApproveStatus where
  | rejected
  | staged (file : String)
deriving Repr, DecidableEq

/-- The observable outcome of approve_upgrade: the saved ledger, the
response status, and the files written to the staging directory. -/
structure ApproveOut where
  ledger : Ledger
  status : ApproveStatus
  fileWrites : List (String × String)
deriving Repr, DecidableEq

/-- approve_upgrade (src/app.py lines 174-201).  An unknown id is a
404.  Rejection sets approved to false and saves.  Approval writes the
disclaimer comment followed by the code to the deterministically named
staging file, sets approved and staged_file, and saves. -/
def approve_upgrade (proposals : Ledger) (proposal_id : String) (approve : Bool) :
    Except String ApproveOut :=
  match dictGet proposals proposal_id with
  | none => .error "Proposal not found"
  | some p =>
    if !approve then
      .ok ⟨dictInsert proposals proposal_id { p with approved := false }, .rejected, []⟩
    else
      let fname := "staging_skills/skill_" ++ proposal_id ++ ".py"
      let content := "# Auto-generated skill - review before enabling" ++ p.code
      .ok ⟨dictInsert proposals proposal_id
            { p with approved := true, staged_file := some fname },
           .staged fname, [(fname, content)]⟩

/-! Embedding of src/main.py, the AI-HQ orchestrator. -/

/-- The provider credentials read from the environment at process
start, each independently optional. -/
structure HqConfig where
  OPENAI_API_KEY : Option String := none
  GOOGLE_API_KEY : Option String := none
  ONFIDO_API_KEY : Option String := none
  REPLICATE_API_KEY : Option String := none

/-- The workflow request body. -/
structure WorkflowRequest where
  user_id : Option String := none
  prompt : String
  user_data : Option (List (String × Json)) := none
  workflow : Option String := none

/-- The text-extraction attempt of call_openai_chat: the value at
choices[0].message.content, or none when any step of that path fails
(every such failure is caught by the try in the source). -/
def extractChatText (j : Json) : Option Json :=
  match j with
  | .obj kvs =>
    match kvs.lookup "choices" with
    | some (.arr (c0 :: _)) =>
      match c0 with
      | .obj ckvs =>
        match ckvs.lookup "message" with
        | some (.obj mkvs) => mkvs.lookup "content"
        | _ => none
      | _ => none
    | _ => none
  | _ => none

/-- call_openai_chat (src/main.py lines 25-51): raises RuntimeError
when the key is missing, otherwise makes exactly one post, raises for
a non-2xx status, and returns the raw payload with the best-effort
text field.  Same network convention as call_hf_text. -/
def call_openai_chat (key : Option String) (net : Nat → HttpResp) (k : Nat) :
    Except PyExc (Json × Json) × Nat :=
  match key with
  | none => (.error (.runtimeError "OpenAI API key missing"), k)
  | some _ =>
    let r := net k
    if isSuccessStatus r.status then
      let text := match extractChatText r.body with
        | some t => t
        | none => .str (pyStr r.body)
      (.ok (r.body, text), k + 1)
    else (.error (.httpStatusError r.status), k + 1)

/-- call_vertex (src/main.py lines 53-55): a pure placeholder -- an
inline error payload when GOOGLE_API_KEY is absent. -/
def call_vertex (cfg : HqConfig) : Json :=
  match cfg.GOOGLE_API_KEY with
  | none => .obj [("error", .str "GOOGLE_API_KEY not set"), ("text", .str "")]
  | some _ =>
    .obj [("raw", .obj []),
          ("text", .str "Vertex call placeholder — integrate with service account.")]

/-- call_onfido_kyc (src/main.py lines 61-63): a pure placeholder --
an inline error payload when ONFIDO_API_KEY is absent. -/
def call_onfido_kyc (cfg : HqConfig) (_user_data : List (String × Json)) : Json :=
  match cfg.ONFIDO_API_KEY with
  | none => .obj [("error", .str "ONFIDO_API_KEY not set")]
  | some _ =>
    .obj [("raw", .obj []), ("status", .str "ok"),
          ("score", .str "low-risk-placeholder")]

/-- call_image_gen (src/main.py lines 65-67): an inline error payload
when REPLICATE_API_KEY is absent; otherwise one post whose JSON body
is returned after raise_for_status. -/
def call_image_gen (cfg : HqConfig) (net : Nat → HttpResp) (k : Nat) :
    Except PyExc Json × Nat :=
  match cfg.REPLICATE_API_KEY with
  | none => (.ok (.obj [("error", .str "REPLICATE_API_KEY not set")]), k)
  | some _ =>
    let r := net k
    if isSuccessStatus r.status then (.ok r.body, k + 1)
    else (.error (.httpStatusError r.status), k + 1)

/-- The user-visible failure of run_workflow: httpx.HTTPStatusError
becomes a 502, every other exception a 500 (src/main.py lines
100-105). -/
inductive WorkflowFailure where
  | e502 (status : Nat)
  | e500 (detail : String)
deriving Repr, DecidableEq

def failureOf : PyExc → WorkflowFailure
  | .httpStatusError s => .e502 s
  | e => .e500 (excDetail e)

/-- The packaged result of run_workflow (src/main.py lines 91-97).
The image and kyc slots hold Json.null when their step was skipped,
mirroring the Python None. -/
structure WorkflowResult where
  analysis : Json
  vertex_check : Json
  image : Json
  kyc : Json
  marketing : Json
deriving Repr

/-- The condition of step 3: the word logo appears in the lowercased
prompt or in the lowercased workflow name (src/main.py line 78). -/
def logoCond (req : WorkflowRequest) : Bool :=
  strContains "logo" (pyLower req.prompt) ||
  strContains "logo" (pyLower (req.workflow.getD ""))

/-- The condition of step 4: user_data is present and truthy and holds
an id_number or id_image key (src/main.py line 83). -/
def kycCond (req : WorkflowRequest) : Bool :=
  match req.user_data with
  | none => false
  | some ud =>
    !ud.isEmpty &&
    ((ud.map Prod.fst).contains "id_number" || (ud.map Prod.fst).contains "id_image")

/-- run_workflow (src/main.py lines 71-105): plan analysis via the
LLM, best-effort vertex trend check, conditional image generation,
conditional KYC, marketing copy via the LLM, package the five slots.
Exceptions escaping a step abort the whole request. -/
def run_workflow (cfg : HqConfig) (req : WorkflowRequest) (net : Nat → HttpResp) :
    Except WorkflowFailure WorkflowResult :=
  match call_openai_chat cfg.OPENAI_API_KEY net 0 with
  | (.error e, _) => .error (failureOf e)
  | (.ok llm1, k1) =>
    match (if logoCond req then call_image_gen cfg net k1 else (.ok .null, k1)) with
    | (.error e, _) => .error (failureOf e)
    | (.ok image_result, k2) =>
      match call_openai_chat cfg.OPENAI_API_KEY net k2 with
      | (.error e, _) => .error (failureOf e)
      | (.ok marketing, _) =>
        .ok ⟨llm1.2, call_vertex cfg, image_result,
             (match req.user_data with
              | some ud => if kycCond req then call_onfido_kyc cfg ud else .null
              | none => .null),
             marketing.2⟩

/-! Ledger lemmas. -/

theorem dictGet_insert (l : Ledger) (k : String) (v : Proposal) :
    dictGet (dictInsert l k v) k = some v := by
  induction l with
  | nil => simp [dictInsert, dictGet]
  | cons hd tl ih =>
    obtain ⟨a, b⟩ := hd
    by_cases h : a = k
    · simp [dictInsert, dictGet, h]
    · simp [dictInsert, dictGet, h, ih]

/-- Re-inserting the value already stored at a key leaves a Python
dict unchanged. -/
theorem dictInsert_self (l : Ledger) (k : String) (v : Proposal)
    (h : dictGet l k = some v) : dictInsert l k v = l := by
  induction l with
  | nil => simp [dictGet] at h
  | cons hd tl ih =>
    obtain ⟨a, b⟩ := hd
    by_cases hk : a = k
    · simp [dictGet, hk] at h
      simp [dictInsert, hk, h]
    · simp [dictGet, hk] at h
      simp [dictInsert, hk, ih h]

theorem countKey_nil (k : String) : countKey [] k = 0 := rfl

theorem countKey_cons (a : String) (b : Proposal) (tl : Ledger) (k : String) :
    countKey ((a, b) :: tl) k =
    (if a = k then 1 else 0) + countKey tl k := by
  by_cases h : a = k
  · simp [countKey, List.filter_cons, h, Nat.add_comm]
  · simp [countKey, List.filter_cons, h]

theorem countKey_eq_zero_of_not_mem (l : Ledger) (k : String)
    (h : k ∉ keysOf l) : countKey l k = 0 := by
  induction l with
  | nil => rfl
  | cons hd tl ih =>
    obtain ⟨a, b⟩ := hd
    have hcons : keysOf ((a, b) :: tl) = a :: keysOf tl := rfl
    rw [hcons] at h
    have h' : ¬(k = a ∨ k ∈ keysOf tl) := by
      rw [← List.mem_cons]; exact h
    push_neg at h'
    rw [countKey_cons, if_neg (fun he => h'.1 he.symm), ih h'.2]

/-- Inserting into a dict with distinct keys leaves exactly one entry
under the inserted key. -/
theorem countKey_insert (l : Ledger) (k : String) (v : Proposal)
    (h : nodupKeys l) : countKey (dictInsert l k v) k = 1 := by
  induction l with
  | nil => simp [dictInsert, countKey_cons, countKey_nil]
  | cons hd tl ih =>
    obtain ⟨a, b⟩ := hd
    have hcons : keysOf ((a, b) :: tl) = a :: keysOf tl := rfl
    have hnd := h
    unfold nodupKeys at hnd
    rw [hcons, List.nodup_cons] at hnd
    by_cases hk : a = k
    · have hz : countKey tl k = 0 :=
        countKey_eq_zero_of_not_mem tl k (hk ▸ hnd.1)
      simp [dictInsert, hk, countKey_cons, hz]
    · have : dictInsert ((a, b) :: tl) k v = (a, b) :: dictInsert tl k v := by
        simp [dictInsert, hk]
      rw [this, countKey_cons, if_neg hk, ih hnd.2]

/-! Claim C2. -/

/-- C2: approve(id, true) fails with NotFound when the id is absent
from the ledger; when the id is present with a Proposed record
(approved false, no staged file), it returns a Staged outcome carrying
the staged path, saves the record with approved set to true and the
staged path recorded, and writes the staged file whose content is the
disclaimer comment followed by the proposal code. -/
theorem C2_approve_true (l : Ledger) (pid : String) :
    (dictGet l pid = none → approve_upgrade l pid true = .error "Proposal not found") ∧
    (∀ p : Proposal, dictGet l pid = some p → p.approved = false → p.staged_file = none →
      approve_upgrade l pid true =
        .ok ⟨dictInsert l pid
              { p with approved := true,
                       staged_file := some ("staging_skills/skill_" ++ pid ++ ".py") },
             .staged ("staging_skills/skill_" ++ pid ++ ".py"),
             [("staging_skills/skill_" ++ pid ++ ".py",
               "# Auto-generated skill - review before enabling" ++ p.code)]⟩ ∧
      dictGet (dictInsert l pid
              { p with approved := true,
                       staged_file := some ("staging_skills/skill_" ++ pid ++ ".py") }) pid =
        some { p with approved := true,
                      staged_file := some ("staging_skills/skill_" ++ pid ++ ".py") }) := by
  constructor
  · intro h
    simp [approve_upgrade, h]
  · intro p h _ _
    refine ⟨by simp [approve_upgrade, h], dictGet_insert _ _ _⟩

/-- Witness for C2 at a concrete ledger: the id b is absent, the id a
holds a Proposed record. -/
theorem C2_witness :
    approve_upgrade [("a", ⟨"u1", "a parser", "print(1)", false, none⟩)] "b" true =
      .error "Proposal not found" ∧
    approve_upgrade [("a", ⟨"u1", "a parser", "print(1)", false, none⟩)] "a" true =
      .ok ⟨[("a", ⟨"u1", "a parser", "print(1)", true,
                  some "staging_skills/skill_a.py"⟩)],
           .staged "staging_skills/skill_a.py",
           [("staging_skills/skill_a.py",
             "# Auto-generated skill - review before enablingprint(1)")]⟩ := by
  constructor
  · exact (C2_approve_true [("a", ⟨"u1", "a parser", "print(1)", false, none⟩)] "b").1
      (by decide)
  · have h := ((C2_approve_true [("a", ⟨"u1", "a parser", "print(1)", false, none⟩)]
      "a").2 ⟨"u1", "a parser", "print(1)", false, none⟩ (by decide) rfl rfl).1
    simpa using h

/-! Claim C4. -/

/-- C4: propose called twice with identical (user_id, prompt, code)
yields the same id both times, the second call leaves the ledger of
the first call unchanged, and afterwards the ledger holds exactly one
entry under that id. -/
theorem C4_propose_idempotent (l : Ledger) (u p c : String) (h : nodupKeys l) :
    (propose_upgrade l u p c).2 =
      (propose_upgrade (propose_upgrade l u p c).1 u p c).2 ∧
    (propose_upgrade (propose_upgrade l u p c).1 u p c).1 =
      (propose_upgrade l u p c).1 ∧
    countKey (propose_upgrade (propose_upgrade l u p c).1 u p c).1
      (propose_upgrade l u p c).2 = 1 := by
  have hpair : ∀ l' : Ledger, propose_upgrade l' u p c =
      (dictInsert l' ((sha1Hex (strBytes (u ++ p ++ c))).take 10) ⟨u, p, c, false, none⟩,
       (sha1Hex (strBytes (u ++ p ++ c))).take 10) := fun _ => rfl
  simp only [hpair]
  generalize (sha1Hex (strBytes (u ++ p ++ c))).take 10 = q
  have h2 := dictInsert_self (dictInsert l q ⟨u, p, c, false, none⟩) q
    ⟨u, p, c, false, none⟩ (dictGet_insert l q ⟨u, p, c, false, none⟩)
  exact ⟨trivial, h2, by rw [h2]; exact countKey_insert l q _ h⟩

/-- Witness for C4 on the empty ledger. -/
theorem C4_witness :
    (propose_upgrade [] "u1" "a CSV parser" "def parse(s): return s").2 =
      (propose_upgrade (propose_upgrade [] "u1" "a CSV parser" "def parse(s): return s").1
        "u1" "a CSV parser" "def parse(s): return s").2 ∧
    (propose_upgrade (propose_upgrade [] "u1" "a CSV parser" "def parse(s): return s").1
        "u1" "a CSV parser" "def parse(s): return s").1 =
      (propose_upgrade [] "u1" "a CSV parser" "def parse(s): return s").1 ∧
    countKey (propose_upgrade
        (propose_upgrade [] "u1" "a CSV parser" "def parse(s): return s").1
        "u1" "a CSV parser" "def parse(s): return s").1
      (propose_upgrade [] "u1" "a CSV parser" "def parse(s): return s").2 = 1 :=
  C4_propose_idempotent [] "u1" "a CSV parser" "def parse(s): return s"
    (by simp [nodupKeys, keysOf])

/-! Claim C1. -/

def c1First : Ledger × String := propose_upgrade [] "u" "p" "c"

def c1Staged : ApproveOut :=
  (approve_upgrade c1First.1 c1First.2 true).toOption.getD ⟨[], .rejected, []⟩

def c1After : Ledger := (propose_upgrade c1Staged.ledger "u" "p" "c").1

set_option maxRecDepth 20000 in
/-- Counterexample to C1 as stated: after propose and approve(id,
true) the proposal is terminal (Staged, approved, staged file
recorded), yet re-submitting propose with the identical (user_id,
prompt, code) is an operation that overwrites the record back to a
fresh Proposed one (approved false, no staged file), so the claim that
no operation transitions a terminal proposal back to Proposed is false
at this input. -/
theorem C1_counterexample :
    c1Staged.status = .staged ("staging_skills/skill_" ++ c1First.2 ++ ".py") ∧
    (dictGet c1Staged.ledger c1First.2).map
      (fun p => (p.approved, p.staged_file.isSome)) = some (true, true) ∧
    (propose_upgrade c1Staged.ledger "u" "p" "c").2 = c1First.2 ∧
    (dictGet c1After c1First.2).map
      (fun p => (p.approved, p.staged_file.isSome)) = some (false, false) := by
  decide

/-- C1 (amended): Rejected and Staged are terminal under the approve
operation: re-rejecting a rejected proposal is an idempotent no-op
confirmation leaving the saved ledger unchanged, re-approving a staged
proposal re-writes the same staged file with identical content and
leaves the ledger unchanged, and no approve call removes the staged
marker of a staged proposal; the propose operation with identical
arguments, however, overwrites a terminal record back to Proposed. -/
theorem C1_amended (l : Ledger) (pid : String) (p : Proposal)
    (h : dictGet l pid = some p) :
    (∀ out : ApproveOut, approve_upgrade l pid false = .ok out →
      approve_upgrade out.ledger pid false = .ok ⟨out.ledger, .rejected, []⟩) ∧
    (∀ out : ApproveOut, approve_upgrade l pid true = .ok out →
      approve_upgrade out.ledger pid true = .ok ⟨out.ledger, out.status, out.fileWrites⟩) ∧
    (∀ out : ApproveOut, approve_upgrade l pid true = .ok out → ∀ b : Bool,
      ∀ out2 : ApproveOut, approve_upgrade out.ledger pid b = .ok out2 →
        (dictGet out2.ledger pid).map Proposal.staged_file =
          some (some ("staging_skills/skill_" ++ pid ++ ".py"))) := by
  have hrej : approve_upgrade l pid false =
      .ok ⟨dictInsert l pid { p with approved := false }, .rejected, []⟩ := by
    simp [approve_upgrade, h]
  have happ : approve_upgrade l pid true =
      .ok ⟨dictInsert l pid
            { p with approved := true,
                     staged_file := some ("staging_skills/skill_" ++ pid ++ ".py") },
           .staged ("staging_skills/skill_" ++ pid ++ ".py"),
           [("staging_skills/skill_" ++ pid ++ ".py",
             "# Auto-generated skill - review before enabling" ++ p.code)]⟩ := by
    simp [approve_upgrade, h]
  refine ⟨?_, ?_, ?_⟩
  · intro out hout
    rw [hrej] at hout
    injection hout with he
    subst he
    simp [approve_upgrade, dictGet_insert, dictInsert_self _ _ _ (dictGet_insert l pid _)]
  · intro out hout
    rw [happ] at hout
    injection hout with he
    subst he
    simp [approve_upgrade, dictGet_insert, dictInsert_self _ _ _ (dictGet_insert l pid _)]
  · intro out hout b out2 hout2
    rw [happ] at hout
    injection hout with he
    subst he
    cases b with
    | false =>
      simp only [approve_upgrade, dictGet_insert, Bool.not_false, if_pos] at hout2
      injection hout2 with he2
      subst he2
      simp [dictGet_insert]
    | true =>
      simp only [approve_upgrade, dictGet_insert, Bool.not_true, if_neg] at hout2
      injection hout2 with he2
      subst he2
      simp [dictGet_insert]

/-- Witness for the amended C1 at a concrete one-entry ledger. -/
theorem C1_witness :
    approve_upgrade [("x", ⟨"u", "p", "c", false, none⟩)] "x" false =
      .ok ⟨[("x", ⟨"u", "p", "c", false, none⟩)], .rejected, []⟩ ∧
    approve_upgrade [("x", ⟨"u", "p", "c", true, some "staging_skills/skill_x.py"⟩)]
        "x" true =
      .ok ⟨[("x", ⟨"u", "p", "c", true, some "staging_skills/skill_x.py"⟩)],
           .staged "staging_skills/skill_x.py",
           [("staging_skills/skill_x.py",
             "# Auto-generated skill - review before enablingc")]⟩ ∧
    (dictGet [("x", ⟨"u", "p", "c", false, some "staging_skills/skill_x.py"⟩)]
        "x").map Proposal.staged_file = some (some ("staging_skills/skill_" ++ "x" ++ ".py")) := by
  refine ⟨?_, ?_, ?_⟩
  · exact (C1_amended [("x", ⟨"u", "p", "c", false, none⟩)] "x"
      ⟨"u", "p", "c", false, none⟩ rfl).1
      ⟨[("x", ⟨"u", "p", "c", false, none⟩)], .rejected, []⟩ rfl
  · exact (C1_amended [("x", ⟨"u", "p", "c", false, none⟩)] "x"
      ⟨"u", "p", "c", false, none⟩ rfl).2.1
      ⟨[("x", ⟨"u", "p", "c", true, some "staging_skills/skill_x.py"⟩)],
       .staged "staging_skills/skill_x.py",
       [("staging_skills/skill_x.py",
         "# Auto-generated skill - review before enablingc")]⟩ rfl
  · exact (C1_amended [("x", ⟨"u", "p", "c", false, none⟩)] "x"
      ⟨"u", "p", "c", false, none⟩ rfl).2.2
      ⟨[("x", ⟨"u", "p", "c", true, some "staging_skills/skill_x.py"⟩)],
       .staged "staging_skills/skill_x.py",
       [("staging_skills/skill_x.py",
         "# Auto-generated skill - review before enablingc")]⟩ rfl false
      ⟨[("x", ⟨"u", "p", "c", false, some "staging_skills/skill_x.py"⟩)], .rejected, []⟩
      rfl

/-! Claim C3. -/

/-- Counterexample to C3 as stated: with a primary response of status
500, both gateway calls raise after exactly one upstream attempt; in
particular the number of attempts is not two, so no retry against a
fallback model happens before the failure is surfaced. -/
theorem C3_counterexample :
    (call_hf_text (some "tok") (fun _ => ⟨500, .null⟩) 0).1 =
      .error (.httpStatusError 500) ∧
    (call_hf_text (some "tok") (fun _ => ⟨500, .null⟩) 0).2 = 1 ∧
    (call_hf_text (some "tok") (fun _ => ⟨500, .null⟩) 0).2 ≠ 2 ∧
    (call_openai_chat (some "key") (fun _ => ⟨500, .null⟩) 0).1 =
      .error (.httpStatusError 500) ∧
    (call_openai_chat (some "key") (fun _ => ⟨500, .null⟩) 0).2 ≠ 2 := by
  exact ⟨rfl, rfl, by decide, rfl, by decide⟩

/-- C3 (amended): the gateway has no fallback routing: when the
primary response carries a non-success status, call_hf_text and
call_openai_chat raise the status error immediately after exactly one
upstream attempt, and their outcome depends only on that single
response (a network differing beyond the consumed index gives the
identical outcome, so no fallback response is ever consulted). -/
theorem C3_amended (tok key : String) (net net' : Nat → HttpResp) (k : Nat)
    (hfail : isSuccessStatus (net k).status = false)
    (hagree : net' k = net k) :
    call_hf_text (some tok) net k = (.error (.httpStatusError (net k).status), k + 1) ∧
    call_openai_chat (some key) net k =
      (.error (.httpStatusError (net k).status), k + 1) ∧
    call_hf_text (some tok) net' k = call_hf_text (some tok) net k ∧
    call_openai_chat (some key) net' k = call_openai_chat (some key) net k := by
  refine ⟨?_, ?_, ?_, ?_⟩
  · simp [call_hf_text, hfail]
  · simp [call_openai_chat, hfail]
  · simp [call_hf_text, hagree]
  · simp [call_openai_chat, hagree]

/-- Witness for the amended C3: primary fails with 500, a differing
would-be fallback response is never consulted. -/
theorem C3_witness :
    call_hf_text (some "tok") (fun _ => ⟨500, .null⟩) 0 =
      (.error (.httpStatusError 500), 1) ∧
    call_openai_chat (some "key") (fun _ => ⟨500, .null⟩) 0 =
      (.error (.httpStatusError 500), 1) ∧
    call_hf_text (some "tok")
        (fun n => if n = 0 then ⟨500, .null⟩ else ⟨200, .str "fallback"⟩) 0 =
      call_hf_text (some "tok") (fun _ => ⟨500, .null⟩) 0 ∧
    call_openai_chat (some "key")
        (fun n => if n = 0 then ⟨500, .null⟩ else ⟨200, .str "fallback"⟩) 0 =
      call_openai_chat (some "key") (fun _ => ⟨500, .null⟩) 0 :=
  C3_amended "tok" "key" (fun _ => ⟨500, .null⟩)
    (fun n => if n = 0 then ⟨500, .null⟩ else ⟨200, .str "fallback"⟩) 0 rfl rfl

/-! Claim C6. -/

/-- C6: a chat call with allow_learn false whose primary gateway call
succeeds makes exactly one gateway post, returns the response, and
schedules no memory write, leaving persisted memory unchanged. -/
theorem C6_no_learn_frame (token : Option String) (memory : MemoryDoc)
    (prompt : String) (net : Nat → HttpResp) (t : Json)
    (h : call_hf_text token net 0 = (.ok t, 1)) :
    chat token memory prompt false net = ⟨.ok t, 1, []⟩ := by
  simp [chat, h]

/-- Witness for C6 on empty memory and a 200 response. -/
theorem C6_witness :
    chat (some "tok") ⟨[], ""⟩ "Hello" false
        (fun _ => ⟨200, .arr [.obj [("generated_text", .str "hi")]]⟩) =
      ⟨.ok (.str "hi"), 1, []⟩ :=
  C6_no_learn_frame (some "tok") ⟨[], ""⟩ "Hello"
    (fun _ => ⟨200, .arr [.obj [("generated_text", .str "hi")]]⟩) (.str "hi") rfl

/-! Claim C10. -/

/-- C10: with allow_learn true, when the second (summarization)
gateway call fails, no memory write is scheduled at all -- the
just-appended conversation turn is also left unpersisted -- while the
already-computed chat response is still returned. -/
theorem C10_learn_failure_no_write (token : Option String) (memory : MemoryDoc)
    (prompt : String) (net : Nat → HttpResp) (t : Json) (e : PyExc) (k2 : Nat)
    (h1 : call_hf_text token net 0 = (.ok t, 1))
    (h2 : call_hf_text token net 1 = (.error e, k2)) :
    chat token memory prompt true net = ⟨.ok t, k2, []⟩ := by
  simp [chat, h1, h2]

/-- Witness for C10: primary succeeds, summarization gets a 500. -/
theorem C10_witness :
    chat (some "tok") ⟨[], ""⟩ "Hello" true
        (fun n => if n = 0 then ⟨200, .arr [.obj [("generated_text", .str "hi")]]⟩
                  else ⟨500, .null⟩) =
      ⟨.ok (.str "hi"), 2, []⟩ :=
  C10_learn_failure_no_write (some "tok") ⟨[], ""⟩ "Hello"
    (fun n => if n = 0 then ⟨200, .arr [.obj [("generated_text", .str "hi")]]⟩
              else ⟨500, .null⟩)
    (.str "hi") (.httpStatusError 500) 2 rfl rfl

/-! Claim C5. -/

/-- One chat turn as seen by the persisted store: its prompt, the
primary response, whether its learning branch persisted (allow_learn
true and the summarization call succeeded with a string), and the
produced summary line. -/
structure ChatTurn where
  prompt : String
  resp : Json
  persists : Bool
  summ : String

/-- The persisted document after one chat turn: replaced by the
document chat hands to write_memory when the turn persists, untouched
otherwise (chat schedules no write then). -/
def chatPersistStep (doc : MemoryDoc) (t : ChatTurn) : MemoryDoc :=
  if t.persists then chatUpdate doc t.prompt t.resp t.summ else doc

/-- The persisted document after a sequence of chat turns. -/
def chatPersistRun (doc : MemoryDoc) (ts : List ChatTurn) : MemoryDoc :=
  ts.foldl chatPersistStep doc

/-- Folding chatUpdate over the persisting turns only. -/
def chatUpdates (doc : MemoryDoc) (ts : List ChatTurn) : MemoryDoc :=
  ts.foldl (fun d t => chatUpdate d t.prompt t.resp t.summ) doc

/-- chat schedules exactly the chatUpdate document when learning runs
and the summarizer succeeds with a string. -/
theorem chat_schedules_update (token : Option String) (memory : MemoryDoc)
    (prompt : String) (net : Nat → HttpResp) (t : Json) (s : String) (k2 : Nat)
    (h1 : call_hf_text token net 0 = (.ok t, 1))
    (h2 : call_hf_text token net 1 = (.ok (.str s), k2)) :
    chat token memory prompt true net =
      ⟨.ok t, k2, [chatUpdate memory prompt t s]⟩ := by
  simp [chat, h1, h2]

theorem chatPersistRun_nil (doc : MemoryDoc) : chatPersistRun doc [] = doc := rfl

theorem chatPersistRun_cons (doc : MemoryDoc) (t : ChatTurn) (rest : List ChatTurn) :
    chatPersistRun doc (t :: rest) = chatPersistRun (chatPersistStep doc t) rest := by
  simp only [chatPersistRun, List.foldl_cons]

theorem chatUpdates_nil (doc : MemoryDoc) : chatUpdates doc [] = doc := rfl

theorem chatUpdates_cons (doc : MemoryDoc) (t : ChatTurn) (rest : List ChatTurn) :
    chatUpdates doc (t :: rest) =
    chatUpdates (chatUpdate doc t.prompt t.resp t.summ) rest := by
  simp only [chatUpdates, List.foldl_cons]

theorem run_eq_updates (doc : MemoryDoc) (ts : List ChatTurn) :
    chatPersistRun doc ts = chatUpdates doc (ts.filter (fun t => t.persists)) := by
  induction ts generalizing doc with
  | nil => rw [List.filter_nil, chatPersistRun_nil, chatUpdates_nil]
  | cons t rest ih =>
    cases hp : t.persists with
    | true =>
      rw [chatPersistRun_cons, ih]
      have hstep : chatPersistStep doc t = chatUpdate doc t.prompt t.resp t.summ := by
        simp [chatPersistStep, hp]
      rw [hstep,
        show (t :: rest).filter (fun x => x.persists) =
            t :: rest.filter (fun x => x.persists) from by
          simp [List.filter_cons, hp],
        chatUpdates_cons]
    | false =>
      rw [chatPersistRun_cons, ih]
      have hstep : chatPersistStep doc t = doc := by simp [chatPersistStep, hp]
      rw [hstep,
        show (t :: rest).filter (fun x => x.persists) =
            rest.filter (fun x => x.persists) from by
          simp [List.filter_cons, hp]]

theorem chatUpdates_conversations (doc : MemoryDoc) (ts : List ChatTurn)
    (h : ts ≠ []) :
    (chatUpdates doc ts).conversations =
      lastN 200 (doc.conversations ++
        ts.map (fun t => (⟨t.prompt, t.resp⟩ : Turn))) := by
  induction ts generalizing doc with
  | nil => exact absurd rfl h
  | cons t rest ih =>
    rcases rest with _ | ⟨t2, ts2⟩
    · rw [chatUpdates_cons, chatUpdates_nil]
      simp [chatUpdate]
    · rw [chatUpdates_cons, ih _ (by simp)]
      have hconv : (chatUpdate doc t.prompt t.resp t.summ).conversations =
          lastN 200 (doc.conversations ++ [(⟨t.prompt, t.resp⟩ : Turn)]) := by
        simp only [chatUpdate]
      rw [hconv, lastN_append_absorb]
      simp

theorem chatUpdates_summary (doc : MemoryDoc) (ts : List ChatTurn) (h : ts ≠ []) :
    (chatUpdates doc ts).summary.length ≤ 2000 := by
  induction ts generalizing doc with
  | nil => exact absurd rfl h
  | cons t rest ih =>
    rcases rest with _ | ⟨t2, ts2⟩
    · rw [chatUpdates_cons, chatUpdates_nil]
      exact pyTake_length_le 2000 (doc.summary.trim ++ " " ++ t.summ.trim)
    · rw [chatUpdates_cons]
      exact ih _ (by simp)

/-- C5: starting from any memory document, over any sequence of chat
turns at least one of which persists, the persisted conversation
history never exceeds 200 entries and consists of the most recent 200
persisted turns in insertion order appended to the prior history, and
the persisted rolling summary never exceeds 2000 characters.  Turns
with allow_learn false persist nothing, so the persisted state is the
fold over the persisting turns. -/
theorem C5_memory_invariants (doc : MemoryDoc) (ts : List ChatTurn)
    (h : ts.filter (fun t => t.persists) ≠ []) :
    (chatPersistRun doc ts).conversations.length ≤ 200 ∧
    (chatPersistRun doc ts).conversations =
      lastN 200 (doc.conversations ++
        (ts.filter (fun t => t.persists)).map (fun t => (⟨t.prompt, t.resp⟩ : Turn))) ∧
    (chatPersistRun doc ts).summary.length ≤ 2000 := by
  rw [run_eq_updates]
  refine ⟨?_, chatUpdates_conversations doc _ h, chatUpdates_summary doc _ h⟩
  rw [chatUpdates_conversations doc _ h]
  exact lastN_length_le _ _

/-- Witness for C5: one persisting turn on a non-empty document. -/
theorem C5_witness :
    (chatPersistRun ⟨[⟨"old", .str "r0"⟩], "prior"⟩
        [⟨"Hello", .str "ok", true, "greets"⟩]).conversations.length ≤ 200 ∧
    (chatPersistRun ⟨[⟨"old", .str "r0"⟩], "prior"⟩
        [⟨"Hello", .str "ok", true, "greets"⟩]).conversations =
      lastN 200 ((⟨[⟨"old", .str "r0"⟩], "prior"⟩ : MemoryDoc).conversations ++
        (([⟨"Hello", .str "ok", true, "greets"⟩] : List ChatTurn).filter
          (fun t => t.persists)).map (fun t => (⟨t.prompt, t.resp⟩ : Turn))) ∧
    (chatPersistRun ⟨[⟨"old", .str "r0"⟩], "prior"⟩
        [⟨"Hello", .str "ok", true, "greets"⟩]).summary.length ≤ 2000 :=
  C5_memory_invariants ⟨[⟨"old", .str "r0"⟩], "prior"⟩
    [⟨"Hello", .str "ok", true, "greets"⟩] (by simp)

/-! Claim C7. -/

/-- Whether normalization escapes with an unintended Python exception
(IndexError, TypeError, KeyError) rather than returning or raising the
deliberate model error. -/
def hfCrash (j : Json) : Bool :=
  match hfNormalize j with
  | .error .indexError => true
  | .error (.typeError _) => true
  | .error (.keyError _) => true
  | _ => false

/-- The first elements of a list payload on which the normalization
code crashes: non-iterable heads make the membership test raise
TypeError, and string or list heads holding generated_text make the
subscript raise TypeError. -/
def badHead : Json → Bool
  | .null => true
  | .bool _ => true
  | .num _ => true
  | .str s => strContains "generated_text" s
  | .arr xs => xs.any (jsonIsStr "generated_text")
  | .obj _ => false

theorem lookup_isSome_iff_contains (kvs : List (String × Json)) (k : String) :
    (kvs.lookup k).isSome = (kvs.map Prod.fst).contains k := by
  induction kvs with
  | nil => rfl
  | cons hd tl ih =>
    obtain ⟨a, b⟩ := hd
    by_cases h : k = a
    · simp [List.lookup, h]
    · have hba : (k == a) = false := by
        rw [beq_eq_false_iff_ne]; exact h
      have hab : (a == k) = false := by
        rw [beq_eq_false_iff_ne]; exact fun he => h he.symm
      simp [List.lookup, hba, hab, ih]

theorem hfNormalize_obj (kvs : List (String × Json)) :
    hfNormalize (.obj kvs) =
      if (kvs.map Prod.fst).contains "error" then
        .error (.runtimeError
          ("Model error: " ++ pyStr ((kvs.lookup "error").getD .null)))
      else .ok (.str (pyStr (.obj kvs))) := rfl

theorem hfNormalize_arr_cons (x : Json) (rest : List Json) :
    hfNormalize (.arr (x :: rest)) =
      (match pyIn "generated_text" x with
       | .error e => .error e
       | .ok true => pySubscript x "generated_text"
       | .ok false => .ok (.str (pyStr (.arr (x :: rest))))) := rfl

/-- Counterexample to C7 as stated: the empty list is a valid 2xx JSON
payload that is neither a generation list nor an error object, yet the
normalization does not return the stringified payload -- it crashes
with an IndexError from the subscript j[0]. -/
theorem C7_counterexample :
    hfNormalize (.arr []) = .error .indexError ∧
    hfNormalize (.arr []) ≠ .ok (.str (pyStr (.arr []))) := by
  refine ⟨rfl, ?_⟩
  intro h
  cases h

/-- C7 (amended): normalization of a 2xx payload behaves as claimed on
error objects (deliberate model error), on lists whose first element
is an object (returning the generated_text value when the key is
there, the stringified payload otherwise), and on all non-list shapes
(stringified payload); it is not total, however: it crashes with an
unintended exception exactly on the empty list (IndexError) and on
non-empty lists whose first element is a non-iterable (TypeError from
the membership test) or a string or list containing generated_text
(TypeError from the subscript). -/
theorem C7_amended (j : Json) :
    (∀ kvs, j = .obj kvs → (kvs.map Prod.fst).contains "error" = true →
      hfNormalize j =
        .error (.runtimeError
          ("Model error: " ++ pyStr ((kvs.lookup "error").getD .null)))) ∧
    (∀ kvs, j = .obj kvs → (kvs.map Prod.fst).contains "error" = false →
      hfNormalize j = .ok (.str (pyStr j))) ∧
    (∀ kvs rest v, j = .arr (.obj kvs :: rest) →
      kvs.lookup "generated_text" = some v → hfNormalize j = .ok v) ∧
    (∀ kvs rest, j = .arr (.obj kvs :: rest) →
      kvs.lookup "generated_text" = none → hfNormalize j = .ok (.str (pyStr j))) ∧
    ((j = .null ∨ (∃ b, j = .bool b) ∨ (∃ n, j = .num n) ∨ (∃ s, j = .str s)) →
      hfNormalize j = .ok (.str (pyStr j))) ∧
    (hfCrash j = true ↔
      (j = .arr [] ∨ ∃ x rest, j = .arr (x :: rest) ∧ badHead x = true)) := by
  refine ⟨?_, ?_, ?_, ?_, ?_, ?_⟩
  · rintro kvs rfl h
    rw [hfNormalize_obj, if_pos h]
  · rintro kvs rfl h
    rw [hfNormalize_obj, if_neg (by rw [h]; exact Bool.false_ne_true)]
  · rintro kvs rest v rfl hv
    have hcont : (kvs.map Prod.fst).contains "generated_text" = true := by
      rw [← lookup_isSome_iff_contains, hv]; rfl
    rw [hfNormalize_arr_cons]
    have hin : pyIn "generated_text" (Json.obj kvs) = .ok true := by
      rw [show pyIn "generated_text" (Json.obj kvs) =
        .ok ((kvs.map Prod.fst).contains "generated_text") from rfl, hcont]
    rw [hin]
    show pySubscript (Json.obj kvs) "generated_text" = .ok v
    rw [show pySubscript (Json.obj kvs) "generated_text" =
      (match kvs.lookup "generated_text" with
       | some x => Except.ok x
       | none => Except.error (.keyError "generated_text")) from rfl, hv]
  · rintro kvs rest rfl hv
    have hcont : (kvs.map Prod.fst).contains "generated_text" = false := by
      rw [← lookup_isSome_iff_contains, hv]; rfl
    rw [hfNormalize_arr_cons]
    have hin : pyIn "generated_text" (Json.obj kvs) = .ok false := by
      rw [show pyIn "generated_text" (Json.obj kvs) =
        .ok ((kvs.map Prod.fst).contains "generated_text") from rfl, hcont]
    rw [hin]
  · rintro (rfl | ⟨b, rfl⟩ | ⟨n, rfl⟩ | ⟨s, rfl⟩) <;> rfl
  · cases j with
    | null => simp [hfCrash, hfNormalize]
    | bool b => simp [hfCrash, hfNormalize]
    | num n => simp [hfCrash, hfNormalize]
    | str s => simp [hfCrash, hfNormalize]
    | obj kvs =>
      have hfalse : hfCrash (.obj kvs) = false := by
        unfold hfCrash
        rw [hfNormalize_obj]
        cases h : (kvs.map Prod.fst).contains "error"
        · rfl
        · rfl
      simp [hfalse]
    | arr xs =>
      rcases xs with _ | ⟨x, rest⟩
      · simp [hfCrash, hfNormalize]
      · have hiff : ((Json.arr (x :: rest) = Json.arr [] ∨
            ∃ y rest2, Json.arr (x :: rest) = Json.arr (y :: rest2) ∧
              badHead y = true)) ↔ badHead x = true := by
          constructor
          · rintro (habs | ⟨y, rest2, heq, hb⟩)
            · cases habs
            · obtain ⟨h1, _⟩ : y = x ∧ rest2 = rest := by
                have := Json.arr.inj heq
                exact ⟨(List.cons.inj this).1.symm, (List.cons.inj this).2.symm⟩
              rw [← h1]; exact hb
          · intro hb
            exact Or.inr ⟨x, rest, rfl, hb⟩
        rw [hiff]
        have hcrash : hfCrash (.arr (x :: rest)) = badHead x := by
          unfold hfCrash
          rw [hfNormalize_arr_cons]
          cases x with
          | null => rfl
          | bool b => rfl
          | num n => rfl
          | str s =>
            rw [show pyIn "generated_text" (Json.str s) =
              .ok (strContains "generated_text" s) from rfl]
            cases hs : strContains "generated_text" s
            case false =>
              rw [show badHead (Json.str s) = strContains "generated_text" s from rfl,
                hs]
            case true =>
              rw [show badHead (Json.str s) = strContains "generated_text" s from rfl,
                hs]
              rfl
          | arr ys =>
            rw [show pyIn "generated_text" (Json.arr ys) =
              .ok (ys.any (jsonIsStr "generated_text")) from rfl]
            cases hs : ys.any (jsonIsStr "generated_text")
            case false =>
              rw [show badHead (Json.arr ys) = ys.any (jsonIsStr "generated_text") from
                rfl, hs]
            case true =>
              rw [show badHead (Json.arr ys) = ys.any (jsonIsStr "generated_text") from
                rfl, hs]
              rfl
          | obj kvs =>
            rw [show pyIn "generated_text" (Json.obj kvs) =
              .ok ((kvs.map Prod.fst).contains "generated_text") from rfl]
            cases hc : (kvs.map Prod.fst).contains "generated_text"
            · rfl
            · have hsome : (kvs.lookup "generated_text").isSome = true := by
                rw [lookup_isSome_iff_contains, hc]
              obtain ⟨v, hv⟩ := Option.isSome_iff_exists.mp hsome
              show (match pySubscript (Json.obj kvs) "generated_text" with
                    | .error .indexError => true
                    | .error (.typeError _) => true
                    | .error (.keyError _) => true
                    | _ => false) = badHead (Json.obj kvs)
              rw [show pySubscript (Json.obj kvs) "generated_text" =
                (match kvs.lookup "generated_text" with
                 | some x => Except.ok x
                 | none => Except.error (.keyError "generated_text")) from rfl, hv]
              rfl
        rw [hcrash]

/-- Witness for the amended C7 at concrete payloads: an error object,
a generation list, and a crashing list with a numeric head. -/
theorem C7_witness :
    hfNormalize (.obj [("error", .str "boom")]) =
      .error (.runtimeError
        ("Model error: " ++
          pyStr ((([("error", Json.str "boom")]).lookup "error").getD .null))) ∧
    hfNormalize (.arr [.obj [("generated_text", .str "hi")]]) = .ok (.str "hi") ∧
    hfCrash (.arr [.num 3]) = true := by
  refine ⟨?_, ?_, ?_⟩
  · exact (C7_amended (.obj [("error", .str "boom")])).1
      [("error", .str "boom")] rfl (by decide)
  · exact (C7_amended (.arr [.obj [("generated_text", .str "hi")]])).2.2.1
      [("generated_text", .str "hi")] [] (.str "hi") rfl rfl
  · exact (C7_amended (.arr [.num 3])).2.2.2.2.2.mpr
      (Or.inr ⟨.num 3, [], rfl, rfl⟩)

/-! Claim C8. -/

/-- Counterexample to C8 as stated: with only the OpenAI credential
absent (every other provider configured), run_workflow does not embed
a placeholder and complete -- the RuntimeError of call_openai_chat
escapes and the whole request fails with a 500. -/
theorem C8_counterexample :
    run_workflow ⟨none, some "g", some "o", some "r"⟩
      ⟨none, "hello", none, none⟩ (fun _ => ⟨200, .bool true⟩) =
      .error (.e500 "OpenAI API key missing") := rfl

/-- C8 (amended): absence of the Google, Onfido, or Replicate
credential degrades the corresponding step to an inline error payload
embedded in the packaged result, and the pipeline still completes;
absence of the OpenAI credential, however, aborts the whole request
with a 500 server error. -/
theorem C8_amended :
    (∀ (cfg : HqConfig) (req : WorkflowRequest) (net : Nat → HttpResp),
      cfg.OPENAI_API_KEY = none →
      run_workflow cfg req net = .error (.e500 "OpenAI API key missing")) ∧
    (∀ (key : String) (req : WorkflowRequest) (net : Nat → HttpResp),
      (∀ k, isSuccessStatus (net k).status = true) →
      ((run_workflow ⟨some key, none, none, none⟩ req net).toOption.map
          (fun r => r.vertex_check) =
        some (.obj [("error", .str "GOOGLE_API_KEY not set"), ("text", .str "")])) ∧
      ((run_workflow ⟨some key, none, none, none⟩ req net).toOption.map
          (fun r => r.image) =
        some (if logoCond req then .obj [("error", .str "REPLICATE_API_KEY not set")]
              else .null)) ∧
      ((run_workflow ⟨some key, none, none, none⟩ req net).toOption.map
          (fun r => r.kyc) =
        some (if kycCond req then .obj [("error", .str "ONFIDO_API_KEY not set")]
              else .null))) := by
  constructor
  · intro cfg req net h
    simp [run_workflow, call_openai_chat, h, failureOf, excDetail]
  · intro key req net hnet
    have hoa : ∀ k, call_openai_chat (some key) net k =
        (.ok ((net k).body,
          match extractChatText (net k).body with
          | some t => t
          | none => .str (pyStr (net k).body)), k + 1) := by
      intro k
      simp [call_openai_chat, hnet k]
    have himg : call_image_gen ⟨some key, none, none, none⟩ net 1 =
        (.ok (.obj [("error", .str "REPLICATE_API_KEY not set")]), 1) := rfl
    rcases hud : req.user_data with _ | ud
    · have hkyc : kycCond req = false := by simp [kycCond, hud]
      simp [run_workflow, hoa, himg, call_vertex, hud, hkyc]
      by_cases hl : logoCond req <;> simp [hl, Except.toOption]
    · simp [run_workflow, hoa, himg, call_vertex, call_onfido_kyc, hud]
      by_cases hl : logoCond req <;> by_cases hk : kycCond req <;>
        simp [hl, hk, Except.toOption]

/-- Witness for the amended C8: a missing OpenAI key fails the whole
request; with only the OpenAI key set, the degraded steps embed their
placeholder payloads in a completed result. -/
theorem C8_witness :
    run_workflow ⟨none, some "g", some "o", some "r"⟩
      ⟨none, "hello", none, none⟩ (fun _ => ⟨200, .bool true⟩) =
      .error (.e500 "OpenAI API key missing") ∧
    ((run_workflow ⟨some "k", none, none, none⟩
        ⟨none, "make a logo", some [("id_number", .str "1")], none⟩
        (fun _ => ⟨200, .bool true⟩)).toOption.map (fun r => r.vertex_check) =
      some (.obj [("error", .str "GOOGLE_API_KEY not set"), ("text", .str "")])) ∧
    ((run_workflow ⟨some "k", none, none, none⟩
        ⟨none, "make a logo", some [("id_number", .str "1")], none⟩
        (fun _ => ⟨200, .bool true⟩)).toOption.map (fun r => r.image) =
      some (.obj [("error", .str "REPLICATE_API_KEY not set")])) ∧
    ((run_workflow ⟨some "k", none, none, none⟩
        ⟨none, "make a logo", some [("id_number", .str "1")], none⟩
        (fun _ => ⟨200, .bool true⟩)).toOption.map (fun r => r.kyc) =
      some (.obj [("error", .str "ONFIDO_API_KEY not set")])) := by
  refine ⟨C8_amended.1 _ _ _ rfl, ?_, ?_, ?_⟩
  · exact (C8_amended.2 "k" ⟨none, "make a logo", some [("id_number", .str "1")], none⟩
      (fun _ => ⟨200, .bool true⟩) (fun _ => rfl)).1
  · have h := (C8_amended.2 "k"
      ⟨none, "make a logo", some [("id_number", .str "1")], none⟩
      (fun _ => ⟨200, .bool true⟩) (fun _ => rfl)).2.1
    rwa [show logoCond ⟨none, "make a logo", some [("id_number", .str "1")], none⟩ =
      true by decide, if_pos rfl] at h
  · have h := (C8_amended.2 "k"
      ⟨none, "make a logo", some [("id_number", .str "1")], none⟩
      (fun _ => ⟨200, .bool true⟩) (fun _ => rfl)).2.2
    rwa [show kycCond ⟨none, "make a logo", some [("id_number", .str "1")], none⟩ =
      true by decide, if_pos rfl] at h

/-! Claim C9. -/

/-- C9: whenever run_workflow returns a packaged result (and the
upstream bodies are not the JSON literal null), the packaged image
slot is non-null exactly when the word logo appears in the lowercased
prompt or workflow name, and the packaged kyc slot is non-null exactly
when user_data is present, truthy, and holds an id_number or id_image
key. -/
theorem C9_workflow_conditionals (cfg : HqConfig) (req : WorkflowRequest)
    (net : Nat → HttpResp) (resp : WorkflowResult)
    (hok : run_workflow cfg req net = .ok resp)
    (hnn : ∀ k, (net k).body.isNull = false) :
    (resp.image.isNull = false ↔ logoCond req = true) ∧
    (resp.kyc.isNull = false ↔ kycCond req = true) := by
  unfold run_workflow at hok
  split at hok
  · exact Except.noConfusion hok
  · rename_i llm1 k1 heq1
    split at hok
    · exact Except.noConfusion hok
    · rename_i image_result k2 heq2
      have himg : image_result.isNull = false ↔ logoCond req = true := by
        by_cases hl : logoCond req = true
        · rw [if_pos hl] at heq2
          unfold call_image_gen at heq2
          rcases hrep : cfg.REPLICATE_API_KEY with _ | rk
          · rw [hrep] at heq2
            injection heq2 with ha hb
            injection ha with hv
            rw [← hv]
            simp [Json.isNull, hl]
          · rw [hrep] at heq2
            by_cases hst : isSuccessStatus (net k1).status = true
            · rw [if_pos hst] at heq2
              injection heq2 with ha hb
              injection ha with hv
              rw [← hv]
              simp [hl, hnn k1]
            · rw [if_neg hst] at heq2
              injection heq2 with ha hb
              exact Except.noConfusion ha
        · have hl2 : logoCond req = false := by
            cases hlv : logoCond req
            · rfl
            · exact absurd hlv hl
          rw [if_neg (by rw [hl2]; exact Bool.false_ne_true)] at heq2
          injection heq2 with ha hb
          injection ha with hv
          rw [← hv]
          simp [Json.isNull, hl2]
      split at hok
      · exact Except.noConfusion hok
      · rename_i marketing k3 heq3
        injection hok with hr
        subst hr
        refine ⟨himg, ?_⟩
        rcases hud : req.user_data with _ | ud
        · have hk : kycCond req = false := by simp [kycCond, hud]
          simp [Json.isNull, hk]
        · by_cases hk : kycCond req = true
          · rcases honf : cfg.ONFIDO_API_KEY with _ | k4 <;>
              simp [call_onfido_kyc, honf, hk, Json.isNull]
          · have hk2 : kycCond req = false := by
              cases hkv : kycCond req
              · rfl
              · exact absurd hkv hk
            simp [Json.isNull, hk2]

/-- Witness for C9: a logo prompt with only the OpenAI key configured
yields a non-null image placeholder and a null kyc slot. -/
theorem C9_witness :
    ((WorkflowResult.mk (.str "ok")
        (.obj [("error", .str "GOOGLE_API_KEY not set"), ("text", .str "")])
        (.obj [("error", .str "REPLICATE_API_KEY not set")]) .null
        (.str "ok")).image.isNull = false ↔
      logoCond ⟨none, "make a logo", none, none⟩ = true) ∧
    ((WorkflowResult.mk (.str "ok")
        (.obj [("error", .str "GOOGLE_API_KEY not set"), ("text", .str "")])
        (.obj [("error", .str "REPLICATE_API_KEY not set")]) .null
        (.str "ok")).kyc.isNull = false ↔
      kycCond ⟨none, "make a logo", none, none⟩ = true) :=
  C9_workflow_conditionals ⟨some "k", none, none, none⟩
    ⟨none, "make a logo", none, none⟩ (fun _ => ⟨200, .str "ok"⟩)
    (WorkflowResult.mk (.str "ok")
      (.obj [("error", .str "GOOGLE_API_KEY not set"), ("text", .str "")])
      (.obj [("error", .str "REPLICATE_API_KEY not set")]) .null
      (.str "ok"))
    rfl (fun _ => rfl)
